import Mathlib

/-!
Shallow embedding of `lms/djangoapps/django_comment_client/base/views.py`
(discussion forum HTTP handlers of edx-platform).

Each Django view function is modelled as a pure Lean function from an
environment (the external collaborators: comment-service client, course
settings, feature flags, permission checks, file storage) and a request to a
pair of a response and a trace of remote-effect calls (comment-service finds,
saves, follows, votes, flags, and notification publications).

Conventions of the embedding:
* Python `request.POST` is a partial map; it is modelled by a structure of
  `Option String` fields (`none` = key absent).
* `s.strip()` is modelled by `String.trim`; Python truthiness of a string is
  emptiness of the trimmed string.
* `course_key.to_deprecated_string()` of the parsed `course_id` is identified
  with the `course_id` string itself.
* `cc.Thread.find` / `cc.Comment.find` take an `Option String` because
  `_create_comment` passes its (possibly `None`) `thread_id` parameter on.
* An uncaught Python exception (KeyError on a missing `thread_type`,
  UnboundLocalError in `upload`) is modelled by a `none` response.
-/

/-- Payload of `request.POST`: `none` means the key is absent. -/
structure PostData where
  title : Option String := none
  body : Option String := none
  thread_type : Option String := none
  commentable_id : Option String := none
  anonymous : Option String := none
  anonymous_to_peers : Option String := none
  auto_subscribe : Option String := none
  closed : Option String := none
  endorsed : Option String := none
deriving Repr, DecidableEq

/-- The authenticated request: acting user, ajax flag, POST payload and the
`username` GET parameter used by `users`. -/
structure Request where
  user_id : Nat := 0
  username : String := ""
  is_ajax : Bool := false
  post : PostData := {}
  get_username : Option String := none
deriving Repr, DecidableEq

/-- A comment-service thread, with the fields the handlers touch.
`pinned = none` models the `pinned` attribute being absent. -/
structure Thread where
  id : String := ""
  anonymous : Bool := false
  anonymous_to_peers : Bool := false
  commentable_id : String := ""
  course_id : String := ""
  user_id : Nat := 0
  thread_type : String := ""
  body : String := ""
  title : String := ""
  group_id : Option Nat := none
  pinned : Option Bool := none
  closed : Bool := false
deriving Repr, DecidableEq

/-- A comment-service comment. -/
structure Comment where
  id : String := ""
  anonymous : Bool := false
  anonymous_to_peers : Bool := false
  user_id : Nat := 0
  course_id : String := ""
  thread_id : Option String := none
  parent_id : Option String := none
  body : String := ""
  depth : Nat := 0
  endorsed : Bool := false
  endorsement_user_id : Option Nat := none
deriving Repr, DecidableEq

/-- The payload of `edx_notifications.data.NotificationMessage` as built by
`publish_discussion_notification` (namespace, type name, and fixed-shape
payload with schema version "1"). -/
structure NotificationMessage where
  nspace : String
  msg_type : String
  schema_version : String := "1"
  action_user_id : Nat
  action_username : String
  thread_title : String
  link_to_thread : String
deriving Repr, DecidableEq

/-- The outcome of `util.file.store_uploaded_file`: either the stored file's
URL (already parsed into urlparse components) or a raised exception with its
message. -/
inductive UploadOutcome where
  | stored (scheme netloc path params query fragment : String)
  | permissionDenied (msg : String)
  | unexpected (msg : String)
deriving Repr, DecidableEq

/-- One remote call issued by a handler: comment-service reads and mutations,
notification-publisher calls, file storage. -/
inductive Effect where
  | findThread (id : Option String)
  | findComment (id : Option String)
  | findCommentable (id : String)
  | findUser (id : String)
  | saveThread (t : Thread)
  | saveComment (c : Comment)
  | deleteThread (t : Thread)
  | deleteComment (c : Comment)
  | followThread (t : Thread)
  | followCommentable (id : String)
  | followUser (id : String)
  | unfollowThread (t : Thread)
  | unfollowCommentable (id : String)
  | unfollowUser (id : String)
  | voteThread (t : Thread) (value : String)
  | voteComment (c : Comment) (value : String)
  | unvoteThread (t : Thread)
  | unvoteComment (c : Comment)
  | flagAbuseThread (t : Thread)
  | flagAbuseComment (c : Comment)
  | unFlagAbuseThread (t : Thread) (removeAll : Bool)
  | unFlagAbuseComment (c : Comment) (removeAll : Bool)
  | pinThread (id : String)
  | unPinThread (id : String)
  | registerNotificationType (name : String)
  | notify (recipient : Nat) (msg : NotificationMessage)
  | storeFile
  | retrieveUser (id : Nat)
deriving Repr, DecidableEq

/-- The JSON response of a handler. Entity-carrying constructors record the
entity handed to `prepare_content` / `ajax_content_response` and whether the
ajax branch was taken. -/
inductive Response where
  | jsonError (msg : String) (status : Nat)
  | badRequest (msg : String)
  | threadContent (t : Thread) (ajax : Bool)
  | threadWithAbility (t : Thread)
  | commentContent (c : Comment) (ajax : Bool)
  | uploadResult (msg error file_url : String)
  | usersResult (userList : List (Nat × String))
  | emptyJson
deriving Repr, DecidableEq

/-- The external collaborators of the module: course configuration,
`settings.FEATURES`, `django_comment_client.settings`, the comment-service
client, the permission engine, file storage and the Django user table. -/
structure Env where
  allow_anonymous : Bool := false
  allow_anonymous_to_peers : Bool := false
  FEATURES_NOTIFICATIONS_ENABLED : Option Bool := none
  MAX_COMMENT_DEPTH : Option Int := none
  findThread : Option String → Thread := fun _ => {}
  findComment : Option String → Comment := fun _ => {}
  saveThread : Thread → Thread := fun t => t
  saveComment : Comment → Comment := fun c => c
  group_id_result : Except Unit (Option Nat) := .ok none
  discussion_category_ids : List String := []
  has_openclose_permission : Bool := false
  has_staff_access : Bool := false
  permalink : Thread → String := fun _ => ""
  course_access_forum : Bool := true
  django_user : String → Option (Nat × String) := fun _ => none
  threads_count : Nat → Nat := fun _ => 0
  comments_count : Nat → Nat := fun _ => 0
  upload_store : UploadOutcome := .unexpected ""

/-- Python whitespace as stripped by `str.strip()` and lowered by
`str.lower()` (ASCII range). -/
def isSpaceChar (c : Char) : Bool :=
  c == ' ' || c == '\t' || c == '\n' || c == '\r' || c == '\x0b' || c == '\x0c'

/-- `post.get(key, 'false').lower() == 'true'`, on the character lists of the
strings. -/
def postFlag (o : Option String) : Bool :=
  (o.getD "false").data.map Char.toLower == "true".data

/-- `key not in post or not post[key].strip()`: the field is absent, empty or
whitespace-only (a string strips to empty exactly when all its characters are
whitespace). -/
def blankField : Option String → Bool
  | none => true
  | some s => s.data.all isSpaceChar

/-- `settings.FEATURES.get("NOTIFICATIONS_ENABLED", False)`. -/
def notificationsEnabled (env : Env) : Bool :=
  env.FEATURES_NOTIFICATIONS_ENABLED.getD false

/-- `publish_discussion_notification` (views.py line 555): registers the type
and publishes the message to the original poster. -/
def publish_discussion_notification (msg_type_name course_id : String)
    (original_poster_id action_user_id : Nat)
    (action_username thread_title link_to_thread : String) : List Effect :=
  [Effect.registerNotificationType msg_type_name,
   Effect.notify original_poster_id
     { nspace := course_id, msg_type := msg_type_name,
       action_user_id := action_user_id, action_username := action_username,
       thread_title := thread_title, link_to_thread := link_to_thread }]

/-- `_create_comment` (views.py line 173): validate the body, build and save
the comment, optionally auto-subscribe, and publish a reply notification only
when the feature flag is on, the comment is a direct reply to the thread
(`parent_id is None`) and the acting user is not the thread author. -/
def _create_comment (env : Env) (req : Request) (course_id : String)
    (thread_id parent_id : Option String) : Response × List Effect :=
  let post := req.post
  if blankField post.body then
    (.jsonError "Body can't be empty" 400, [])
  else
    let anonymous := env.allow_anonymous && postFlag post.anonymous
    let anonymous_to_peers := env.allow_anonymous_to_peers && postFlag post.anonymous_to_peers
    let comment : Comment :=
      { anonymous := anonymous, anonymous_to_peers := anonymous_to_peers,
        user_id := req.user_id, course_id := course_id,
        thread_id := thread_id, parent_id := parent_id,
        body := post.body.getD "" }
    let saved := env.saveComment comment
    let effs := [Effect.saveComment comment]
    let effs := if postFlag post.auto_subscribe
      then effs ++ [Effect.followThread (env.findThread saved.thread_id)]
      else effs
    let effs :=
      if notificationsEnabled env && parent_id == none then
        let thread := env.findThread thread_id
        let effs := effs ++ [Effect.findThread thread_id]
        if req.user_id == thread.user_id then effs
        else effs ++ publish_discussion_notification
          "open-edx.lms.discussions.reply-to-thread" course_id
          thread.user_id req.user_id req.username thread.title (env.permalink thread)
      else effs
    (.commentContent saved req.is_ajax, effs)

/-- `create_comment` (views.py line 239): reject when the configured maximum
depth is negative, otherwise delegate to `_create_comment` with no parent. -/
def create_comment (env : Env) (req : Request) (course_id thread_id : String) :
    Response × List Effect :=
  match env.MAX_COMMENT_DEPTH with
  | some m =>
    if m < 0 then (.jsonError "Comment level too deep" 400, [])
    else _create_comment env req course_id (some thread_id) none
  | none => _create_comment env req course_id (some thread_id) none

/-- `create_sub_comment` (views.py line 323): reject when the configured
maximum depth is at most the parent comment's depth, otherwise delegate to
`_create_comment` with the parent set. -/
def create_sub_comment (env : Env) (req : Request) (course_id comment_id : String) :
    Response × List Effect :=
  match env.MAX_COMMENT_DEPTH with
  | some m =>
    if m ≤ ((env.findComment (some comment_id)).depth : Int) then
      (.jsonError "Comment level too deep" 400, [Effect.findComment (some comment_id)])
    else
      let r := _create_comment env req course_id none (some comment_id)
      (r.1, Effect.findComment (some comment_id) :: r.2)
  | none => _create_comment env req course_id none (some comment_id)

/-- The backward-compatibility patch of views.py lines 124-125: if the saved
thread has no `pinned` attribute, set it to `False`. -/
def pinnedPatch (t : Thread) : Thread :=
  if t.pinned.isSome then t else { t with pinned := some false }

/-- `create_thread` (views.py line 77): validate title and body, build the
thread, resolve the cohort group id, save, patch a missing `pinned` attribute
to `False`, optionally auto-subscribe, and return the thread.  A payload
without `thread_type` raises KeyError (modelled as a `none` response). -/
def create_thread (env : Env) (req : Request) (course_id commentable_id : String) :
    Option Response × List Effect :=
  let post := req.post
  let anonymous := env.allow_anonymous && postFlag post.anonymous
  let anonymous_to_peers := env.allow_anonymous_to_peers && postFlag post.anonymous_to_peers
  if blankField post.title then (some (.jsonError "Title can't be empty" 400), [])
  else if blankField post.body then (some (.jsonError "Body can't be empty" 400), [])
  else
    match post.thread_type with
    | none => (none, [])
    | some ttype =>
      let thread : Thread :=
        { anonymous := anonymous, anonymous_to_peers := anonymous_to_peers,
          commentable_id := commentable_id, course_id := course_id,
          user_id := req.user_id, thread_type := ttype,
          body := post.body.getD "", title := post.title.getD "" }
      match env.group_id_result with
      | .error _ => (some (.badRequest "Invalid cohort id"), [])
      | .ok gid =>
        let thread := match gid with
          | some g => { thread with group_id := some g }
          | none => thread
        let saved := pinnedPatch (env.saveThread thread)
        let effs := [Effect.saveThread thread]
        let effs := if postFlag post.auto_subscribe
          then effs ++ [Effect.followThread saved]
          else effs
        (some (.threadContent saved req.is_ajax), effs)

/-- `update_thread` (views.py line 141): validate title/body, overwrite them,
overwrite `thread_type` and `commentable_id` only when present in the payload
(rejecting an unknown topic id), and save. -/
def update_thread (env : Env) (req : Request) (course_id thread_id : String) :
    Response × List Effect :=
  let post := req.post
  if blankField post.title then (.jsonError "Title can't be empty" 400, [])
  else if blankField post.body then (.jsonError "Body can't be empty" 400, [])
  else
    let thread := env.findThread (some thread_id)
    let effs := [Effect.findThread (some thread_id)]
    let thread := { thread with body := post.body.getD "", title := post.title.getD "" }
    let thread := match post.thread_type with
      | some tt => { thread with thread_type := tt }
      | none => thread
    match post.commentable_id with
    | some cid =>
      if env.discussion_category_ids.contains cid then
        let thread := { thread with commentable_id := cid }
        (.threadContent (env.saveThread thread) req.is_ajax, effs ++ [Effect.saveThread thread])
      else (.jsonError "Topic doesn't exist" 400, effs)
    | none =>
      (.threadContent (env.saveThread thread) req.is_ajax, effs ++ [Effect.saveThread thread])

/-- `update_comment` (views.py line 268): find the comment, validate the body,
overwrite only the body, and save. -/
def update_comment (env : Env) (req : Request) (course_id comment_id : String) :
    Response × List Effect :=
  let comment := env.findComment (some comment_id)
  let effs := [Effect.findComment (some comment_id)]
  if blankField req.post.body then (.jsonError "Body can't be empty" 400, effs)
  else
    let comment := { comment with body := req.post.body.getD "" }
    (.commentContent (env.saveComment comment) req.is_ajax, effs ++ [Effect.saveComment comment])

/-- `delete_thread` (views.py line 253): find and delete the thread. -/
def delete_thread (env : Env) (req : Request) (course_id thread_id : String) :
    Response × List Effect :=
  let thread := env.findThread (some thread_id)
  (.threadContent thread false,
   [Effect.findThread (some thread_id), Effect.deleteThread thread])

/-- `delete_comment` (views.py line 337): find and delete the comment. -/
def delete_comment (env : Env) (req : Request) (course_id comment_id : String) :
    Response × List Effect :=
  let comment := env.findComment (some comment_id)
  (.commentContent comment false,
   [Effect.findComment (some comment_id), Effect.deleteComment comment])

/-- `endorse_comment` (views.py line 288): toggle endorsement from the payload,
record the endorsing user, and save. -/
def endorse_comment (env : Env) (req : Request) (course_id comment_id : String) :
    Response × List Effect :=
  let comment := env.findComment (some comment_id)
  let comment := { comment with endorsed := postFlag req.post.endorsed,
                                endorsement_user_id := some req.user_id }
  (.commentContent (env.saveComment comment) false,
   [Effect.findComment (some comment_id), Effect.saveComment comment])

/-- `openclose_thread` (views.py line 304): toggle the closed flag from the
payload and save. -/
def openclose_thread (env : Env) (req : Request) (course_id thread_id : String) :
    Response × List Effect :=
  let thread := env.findThread (some thread_id)
  let thread := { thread with closed := postFlag req.post.closed }
  (.threadWithAbility (env.saveThread thread),
   [Effect.findThread (some thread_id), Effect.saveThread thread])

/-- `vote_for_comment` (views.py line 351). -/
def vote_for_comment (env : Env) (req : Request) (course_id comment_id value : String) :
    Response × List Effect :=
  let comment := env.findComment (some comment_id)
  (.commentContent comment false,
   [Effect.findComment (some comment_id), Effect.voteComment comment value])

/-- `undo_vote_for_comment` (views.py line 365). -/
def undo_vote_for_comment (env : Env) (req : Request) (course_id comment_id : String) :
    Response × List Effect :=
  let comment := env.findComment (some comment_id)
  (.commentContent comment false,
   [Effect.findComment (some comment_id), Effect.unvoteComment comment])

/-- `vote_for_thread` (views.py line 380): vote, then publish an upvote
notification only when the feature flag is on and the acting user is not the
thread author. -/
def vote_for_thread (env : Env) (req : Request) (course_id thread_id value : String) :
    Response × List Effect :=
  let thread := env.findThread (some thread_id)
  let effs := [Effect.findThread (some thread_id), Effect.voteThread thread value]
  let effs :=
    if notificationsEnabled env then
      if req.user_id == thread.user_id then effs
      else effs ++ publish_discussion_notification
        "open-edx.lms.discussions.post-upvoted" course_id
        thread.user_id req.user_id req.username thread.title (env.permalink thread)
    else effs
  (.threadContent thread false, effs)

/-- `flag_abuse_for_thread` (views.py line 413). -/
def flag_abuse_for_thread (env : Env) (req : Request) (course_id thread_id : String) :
    Response × List Effect :=
  let thread := env.findThread (some thread_id)
  (.threadContent thread false,
   [Effect.findThread (some thread_id), Effect.flagAbuseThread thread])

/-- `un_flag_abuse_for_thread` (views.py line 429): `remove_all` is granted
exactly when the acting user has the `openclose_thread` permission or staff
access. -/
def un_flag_abuse_for_thread (env : Env) (req : Request) (course_id thread_id : String) :
    Response × List Effect :=
  let remove_all := env.has_openclose_permission || env.has_staff_access
  let thread := env.findThread (some thread_id)
  (.threadContent thread false,
   [Effect.findThread (some thread_id), Effect.unFlagAbuseThread thread remove_all])

/-- `flag_abuse_for_comment` (views.py line 447). -/
def flag_abuse_for_comment (env : Env) (req : Request) (course_id comment_id : String) :
    Response × List Effect :=
  let comment := env.findComment (some comment_id)
  (.commentContent comment false,
   [Effect.findComment (some comment_id), Effect.flagAbuseComment comment])

/-- `un_flag_abuse_for_comment` (views.py line 462): same `remove_all` rule as
for threads. -/
def un_flag_abuse_for_comment (env : Env) (req : Request) (course_id comment_id : String) :
    Response × List Effect :=
  let remove_all := env.has_openclose_permission || env.has_staff_access
  let comment := env.findComment (some comment_id)
  (.commentContent comment false,
   [Effect.findComment (some comment_id), Effect.unFlagAbuseComment comment remove_all])

/-- `undo_vote_for_thread` (views.py line 479). -/
def undo_vote_for_thread (env : Env) (req : Request) (course_id thread_id : String) :
    Response × List Effect :=
  let thread := env.findThread (some thread_id)
  (.threadContent thread false,
   [Effect.findThread (some thread_id), Effect.unvoteThread thread])

/-- `pin_thread` (views.py line 495). -/
def pin_thread (env : Env) (req : Request) (course_id thread_id : String) :
    Response × List Effect :=
  let thread := env.findThread (some thread_id)
  (.threadContent thread false,
   [Effect.findThread (some thread_id), Effect.pinThread thread_id])

/-- `un_pin_thread` (views.py line 511). -/
def un_pin_thread (env : Env) (req : Request) (course_id thread_id : String) :
    Response × List Effect :=
  let thread := env.findThread (some thread_id)
  (.threadContent thread false,
   [Effect.findThread (some thread_id), Effect.unPinThread thread_id])

/-- `follow_thread` (views.py line 527): follow, then publish a followed
notification only when the feature flag is on and the acting user is not the
thread author. -/
def follow_thread (env : Env) (req : Request) (course_id thread_id : String) :
    Response × List Effect :=
  let thread := env.findThread (some thread_id)
  let effs := [Effect.findThread (some thread_id), Effect.followThread thread]
  let effs :=
    if notificationsEnabled env then
      if thread.user_id == req.user_id then effs
      else effs ++ publish_discussion_notification
        "open-edx.lms.discussions.thread-followed" course_id
        thread.user_id req.user_id req.username thread.title (env.permalink thread)
    else effs
  (.emptyJson, effs)

/-- `follow_commentable` (views.py line 581). -/
def follow_commentable (env : Env) (req : Request) (course_id commentable_id : String) :
    Response × List Effect :=
  (.emptyJson, [Effect.findCommentable commentable_id, Effect.followCommentable commentable_id])

/-- `follow_user` (views.py line 595). -/
def follow_user (env : Env) (req : Request) (course_id followed_user_id : String) :
    Response × List Effect :=
  (.emptyJson, [Effect.findUser followed_user_id, Effect.followUser followed_user_id])

/-- `unfollow_thread` (views.py line 605). -/
def unfollow_thread (env : Env) (req : Request) (course_id thread_id : String) :
    Response × List Effect :=
  let thread := env.findThread (some thread_id)
  (.emptyJson, [Effect.findThread (some thread_id), Effect.unfollowThread thread])

/-- `unfollow_commentable` (views.py line 619). -/
def unfollow_commentable (env : Env) (req : Request) (course_id commentable_id : String) :
    Response × List Effect :=
  (.emptyJson, [Effect.findCommentable commentable_id, Effect.unfollowCommentable commentable_id])

/-- `unfollow_user` (views.py line 633). -/
def unfollow_user (env : Env) (req : Request) (course_id followed_user_id : String) :
    Response × List Effect :=
  (.emptyJson, [Effect.findUser followed_user_id, Effect.unfollowUser followed_user_id])

/-- The fixed user-facing message for an unexpected upload error. -/
def uploadGenericError : String :=
  "Error uploading file. Please contact the site administrator. Thank you."

/-- Python 2 `urlparse.urlunparse` on a 6-tuple
(scheme, netloc, path, params, query, fragment). -/
def urlunparse (scheme netloc path params query fragment : String) : String :=
  let url := path
  let url := if params ≠ "" then url ++ ";" ++ params else url
  let url :=
    if netloc ≠ "" ∨ (url ≠ "" ∧ url.take 2 = "//") then
      let url := if url ≠ "" ∧ url.take 1 ≠ "/" then "/" ++ url else url
      "//" ++ netloc ++ url
    else url
  let url := if scheme ≠ "" then scheme ++ ":" ++ url else url
  let url := if query ≠ "" then url ++ "?" ++ query else url
  if fragment ≠ "" then url ++ "#" ++ fragment else url

/-- `upload` (views.py line 647): store the file; an exception sets `error`
(the exception's message for PermissionDenied, the fixed generic message
otherwise); on `error == ''` the success branch rebuilds the URL with params,
query and fragment emptied.  When a raised PermissionDenied carries an empty
message, the success branch is taken with `file_storage` unbound, an uncaught
UnboundLocalError (modelled as a `none` response). -/
def upload (env : Env) (req : Request) (course_id : String) :
    Option Response × List Effect :=
  let effs := [Effect.storeFile]
  let error := match env.upload_store with
    | .stored _ _ _ _ _ _ => ""
    | .permissionDenied m => m
    | .unexpected _ => uploadGenericError
  if error == "" then
    match env.upload_store with
    | .stored scheme netloc path _ _ _ =>
      (some (.uploadResult "Good" "" (urlunparse scheme netloc path "" "" "")), effs)
    | _ => (none, effs)
  else (some (.uploadResult "" error ""), effs)

/-- `users` (views.py line 703): 404 without forum access, 400 without a
`username` parameter; otherwise return the exactly-matching user, but only
when their thread count plus comment count in the course is positive. -/
def users (env : Env) (req : Request) (course_id : String) :
    Response × List Effect :=
  if !env.course_access_forum then (.jsonError "" 404, [])
  else
    match req.get_username with
    | none => (.jsonError "username parameter is required" 400, [])
    | some username =>
      match env.django_user username with
      | none => (.usersResult [], [])
      | some (uid, uname) =>
        let effs := [Effect.retrieveUser uid]
        if env.threads_count uid + env.comments_count uid > 0 then
          (.usersResult [(uid, uname)], effs)
        else (.usersResult [], effs)

/-- Is this effect a `publish_notification_to_user` call? -/
def isNotifyEffect : Effect → Bool
  | .notify _ _ => true
  | _ => false

/-- Does the trace publish at least one notification? -/
def hasNotify (effs : List Effect) : Bool := effs.any isNotifyEffect

/-- Is this effect a remote mutation of the kind named by the spec's
validation property: a save, a follow, or a notification publication? -/
def isMutationEffect : Effect → Bool
  | .saveThread _ => true
  | .saveComment _ => true
  | .followThread _ => true
  | .followCommentable _ => true
  | .followUser _ => true
  | .notify _ _ => true
  | _ => false

/-- The trace issues no save, follow or notification call. -/
def noMutation (effs : List Effect) : Bool := effs.all fun e => !(isMutationEffect e)

/-- A `JsonError` response with the default 400 status. -/
def isValidationError : Response → Bool
  | .jsonError _ 400 => true
  | _ => false

/-- `isValidationError` on an optional response. -/
def isValidationErrorO : Option Response → Bool
  | some r => isValidationError r
  | none => false

/-- Is this effect a `comment.save()` call? -/
def isSaveCommentEffect : Effect → Bool
  | .saveComment _ => true
  | _ => false

theorem hasNotify_append (a b : List Effect) :
    hasNotify (a ++ b) = (hasNotify a || hasNotify b) := by
  simp [hasNotify, List.any_append]

theorem hasNotify_publish (n c : String) (o u : Nat) (un tt lk : String) :
    hasNotify (publish_discussion_notification n c o u un tt lk) = true := rfl

theorem hasNotify_create_thread (env : Env) (req : Request) (a b : String) :
    hasNotify (create_thread env req a b).2 = false := by
  unfold create_thread
  dsimp only
  repeat' split
  all_goals rfl

theorem hasNotify_update_thread (env : Env) (req : Request) (a b : String) :
    hasNotify (update_thread env req a b).2 = false := by
  unfold update_thread
  dsimp only
  repeat' split
  all_goals rfl

theorem hasNotify_update_comment (env : Env) (req : Request) (a b : String) :
    hasNotify (update_comment env req a b).2 = false := by
  unfold update_comment
  dsimp only
  repeat' split
  all_goals rfl

theorem hasNotify_create_comment_inner_parent (env : Env) (req : Request)
    (course_id : String) (thread_id : Option String) (p : String) :
    hasNotify (_create_comment env req course_id thread_id (some p)).2 = false := by
  unfold _create_comment
  dsimp only
  repeat' split <;> (first | rfl | simp_all [hasNotify, isNotifyEffect])

theorem hasNotify_create_sub_comment (env : Env) (req : Request) (a b : String) :
    hasNotify (create_sub_comment env req a b).2 = false := by
  unfold create_sub_comment
  have h := hasNotify_create_comment_inner_parent env req a none b
  repeat' split <;>
    simp_all [hasNotify, isNotifyEffect]

theorem hasNotify_delete_thread (env : Env) (req : Request) (a b : String) :
    hasNotify (delete_thread env req a b).2 = false := rfl

theorem hasNotify_delete_comment (env : Env) (req : Request) (a b : String) :
    hasNotify (delete_comment env req a b).2 = false := rfl

theorem hasNotify_endorse_comment (env : Env) (req : Request) (a b : String) :
    hasNotify (endorse_comment env req a b).2 = false := rfl

theorem hasNotify_openclose_thread (env : Env) (req : Request) (a b : String) :
    hasNotify (openclose_thread env req a b).2 = false := rfl

theorem hasNotify_vote_for_comment (env : Env) (req : Request) (a b v : String) :
    hasNotify (vote_for_comment env req a b v).2 = false := rfl

theorem hasNotify_undo_vote_for_comment (env : Env) (req : Request) (a b : String) :
    hasNotify (undo_vote_for_comment env req a b).2 = false := rfl

theorem hasNotify_flag_abuse_for_thread (env : Env) (req : Request) (a b : String) :
    hasNotify (flag_abuse_for_thread env req a b).2 = false := rfl

theorem hasNotify_un_flag_abuse_for_thread (env : Env) (req : Request) (a b : String) :
    hasNotify (un_flag_abuse_for_thread env req a b).2 = false := rfl

theorem hasNotify_flag_abuse_for_comment (env : Env) (req : Request) (a b : String) :
    hasNotify (flag_abuse_for_comment env req a b).2 = false := rfl

theorem hasNotify_un_flag_abuse_for_comment (env : Env) (req : Request) (a b : String) :
    hasNotify (un_flag_abuse_for_comment env req a b).2 = false := rfl

theorem hasNotify_undo_vote_for_thread (env : Env) (req : Request) (a b : String) :
    hasNotify (undo_vote_for_thread env req a b).2 = false := rfl

theorem hasNotify_pin_thread (env : Env) (req : Request) (a b : String) :
    hasNotify (pin_thread env req a b).2 = false := rfl

theorem hasNotify_un_pin_thread (env : Env) (req : Request) (a b : String) :
    hasNotify (un_pin_thread env req a b).2 = false := rfl

theorem hasNotify_follow_commentable (env : Env) (req : Request) (a b : String) :
    hasNotify (follow_commentable env req a b).2 = false := rfl

theorem hasNotify_follow_user (env : Env) (req : Request) (a b : String) :
    hasNotify (follow_user env req a b).2 = false := rfl

theorem hasNotify_unfollow_thread (env : Env) (req : Request) (a b : String) :
    hasNotify (unfollow_thread env req a b).2 = false := rfl

theorem hasNotify_unfollow_commentable (env : Env) (req : Request) (a b : String) :
    hasNotify (unfollow_commentable env req a b).2 = false := rfl

theorem hasNotify_unfollow_user (env : Env) (req : Request) (a b : String) :
    hasNotify (unfollow_user env req a b).2 = false := rfl

theorem hasNotify_upload (env : Env) (req : Request) (a : String) :
    hasNotify (upload env req a).2 = false := by
  unfold upload
  dsimp only
  repeat' split
  all_goals rfl

theorem hasNotify_users (env : Env) (req : Request) (a : String) :
    hasNotify (users env req a).2 = false := by
  unfold users
  dsimp only
  repeat' split
  all_goals rfl

theorem hasNotify_create_comment_inner_reply (env : Env) (req : Request)
    (course_id : String) (thread_id : Option String)
    (hflag : notificationsEnabled env = true)
    (hbody : blankField req.post.body = false) :
    hasNotify (_create_comment env req course_id thread_id none).2 =
      (req.user_id != (env.findThread thread_id).user_id) := by
  unfold _create_comment
  dsimp only
  simp only [hbody, Bool.false_eq_true, if_false, hflag, Bool.true_and]
  cases h : req.user_id == (env.findThread thread_id).user_id with
  | true =>
    have he : req.user_id = (env.findThread thread_id).user_id := by simpa using h
    simp only [beq_self_eq_true, if_true, he, bne_self_eq_false]
    split <;> rfl
  | false =>
    have hne : req.user_id ≠ (env.findThread thread_id).user_id := by simpa using h
    simp only [beq_self_eq_true, if_true, bne_iff_ne, ne_eq]
    split <;>
      simp_all [hasNotify, isNotifyEffect, publish_discussion_notification, List.any_append]

theorem hasNotify_create_comment_inner_off (env : Env) (req : Request)
    (course_id : String) (thread_id parent_id : Option String)
    (hflag : notificationsEnabled env = false) :
    hasNotify (_create_comment env req course_id thread_id parent_id).2 = false := by
  unfold _create_comment
  dsimp only
  simp only [hflag, Bool.false_and, Bool.false_eq_true, if_false]
  repeat' split
  all_goals rfl

theorem hasNotify_vote_for_thread_on (env : Env) (req : Request)
    (course_id thread_id value : String)
    (hflag : notificationsEnabled env = true) :
    hasNotify (vote_for_thread env req course_id thread_id value).2 =
      (req.user_id != (env.findThread (some thread_id)).user_id) := by
  unfold vote_for_thread
  dsimp only
  rw [hflag]
  cases h : req.user_id == (env.findThread (some thread_id)).user_id <;>
    simp [h, hasNotify, isNotifyEffect, publish_discussion_notification,
      List.any_append, bne]

theorem hasNotify_vote_for_thread_off (env : Env) (req : Request)
    (course_id thread_id value : String)
    (hflag : notificationsEnabled env = false) :
    hasNotify (vote_for_thread env req course_id thread_id value).2 = false := by
  unfold vote_for_thread
  dsimp only
  rw [hflag]
  rfl

theorem hasNotify_follow_thread_on (env : Env) (req : Request)
    (course_id thread_id : String)
    (hflag : notificationsEnabled env = true) :
    hasNotify (follow_thread env req course_id thread_id).2 =
      (req.user_id != (env.findThread (some thread_id)).user_id) := by
  unfold follow_thread
  dsimp only
  rw [hflag]
  cases h : (env.findThread (some thread_id)).user_id == req.user_id with
  | true =>
    have he : (env.findThread (some thread_id)).user_id = req.user_id := by simpa using h
    simp [hasNotify, isNotifyEffect, he]
  | false =>
    have hne : (env.findThread (some thread_id)).user_id ≠ req.user_id := by simpa using h
    simp [hasNotify, isNotifyEffect, publish_discussion_notification, List.any_append,
      bne_iff_ne]
    exact Ne.symm hne

theorem hasNotify_follow_thread_off (env : Env) (req : Request)
    (course_id thread_id : String)
    (hflag : notificationsEnabled env = false) :
    hasNotify (follow_thread env req course_id thread_id).2 = false := by
  unfold follow_thread
  dsimp only
  rw [hflag]
  rfl

theorem hasNotify_create_comment_off (env : Env) (req : Request)
    (course_id thread_id : String)
    (hflag : notificationsEnabled env = false) :
    hasNotify (create_comment env req course_id thread_id).2 = false := by
  unfold create_comment
  cases hm : env.MAX_COMMENT_DEPTH with
  | none => exact hasNotify_create_comment_inner_off env req course_id (some thread_id) none hflag
  | some m =>
    by_cases hlt : m < 0
    · simp [hlt, hasNotify]
    · simp only [hlt, if_false]
      exact hasNotify_create_comment_inner_off env req course_id (some thread_id) none hflag

theorem hasNotify_create_comment_imp (env : Env) (req : Request)
    (course_id thread_id : String)
    (h : hasNotify (create_comment env req course_id thread_id).2 = true) :
    hasNotify (_create_comment env req course_id (some thread_id) none).2 = true := by
  unfold create_comment at h
  cases hm : env.MAX_COMMENT_DEPTH with
  | none => rw [hm] at h; exact h
  | some m =>
    rw [hm] at h
    dsimp only at h
    by_cases hlt : m < 0
    · rw [if_pos hlt] at h; simp [hasNotify] at h
    · rw [if_neg hlt] at h; exact h

/-- C1: for the reply-creation, thread-upvote and thread-follow operations
(with notifications enabled, the flag-off case being a separate claim, and a
non-blank body so that reply creation succeeds), a discussion notification is
published exactly when the acting user's id differs from the thread author's
id; a reply to a comment (`parent_id` set) publishes nothing, `create_comment`
publishes only through the reply-creation path, and no other handler in the
module ever publishes a notification. -/
theorem discussion_notification_iff_actor_differs (env : Env) (req : Request)
    (course_id commentable_id thread_id comment_id followed_user_id value : String)
    (hflag : notificationsEnabled env = true)
    (hbody : blankField req.post.body = false) :
    (hasNotify (_create_comment env req course_id (some thread_id) none).2 =
        (req.user_id != (env.findThread (some thread_id)).user_id))
  ∧ (hasNotify (vote_for_thread env req course_id thread_id value).2 =
        (req.user_id != (env.findThread (some thread_id)).user_id))
  ∧ (hasNotify (follow_thread env req course_id thread_id).2 =
        (req.user_id != (env.findThread (some thread_id)).user_id))
  ∧ (∀ p : String,
        hasNotify (_create_comment env req course_id (some thread_id) (some p)).2 = false)
  ∧ (hasNotify (create_comment env req course_id thread_id).2 = true →
        hasNotify (_create_comment env req course_id (some thread_id) none).2 = true)
  ∧ hasNotify (create_thread env req course_id commentable_id).2 = false
  ∧ hasNotify (update_thread env req course_id thread_id).2 = false
  ∧ hasNotify (update_comment env req course_id comment_id).2 = false
  ∧ hasNotify (create_sub_comment env req course_id comment_id).2 = false
  ∧ hasNotify (delete_thread env req course_id thread_id).2 = false
  ∧ hasNotify (delete_comment env req course_id comment_id).2 = false
  ∧ hasNotify (endorse_comment env req course_id comment_id).2 = false
  ∧ hasNotify (openclose_thread env req course_id thread_id).2 = false
  ∧ hasNotify (vote_for_comment env req course_id comment_id value).2 = false
  ∧ hasNotify (undo_vote_for_comment env req course_id comment_id).2 = false
  ∧ hasNotify (undo_vote_for_thread env req course_id thread_id).2 = false
  ∧ hasNotify (flag_abuse_for_thread env req course_id thread_id).2 = false
  ∧ hasNotify (un_flag_abuse_for_thread env req course_id thread_id).2 = false
  ∧ hasNotify (flag_abuse_for_comment env req course_id comment_id).2 = false
  ∧ hasNotify (un_flag_abuse_for_comment env req course_id comment_id).2 = false
  ∧ hasNotify (pin_thread env req course_id thread_id).2 = false
  ∧ hasNotify (un_pin_thread env req course_id thread_id).2 = false
  ∧ hasNotify (follow_commentable env req course_id commentable_id).2 = false
  ∧ hasNotify (follow_user env req course_id followed_user_id).2 = false
  ∧ hasNotify (unfollow_thread env req course_id thread_id).2 = false
  ∧ hasNotify (unfollow_commentable env req course_id commentable_id).2 = false
  ∧ hasNotify (unfollow_user env req course_id followed_user_id).2 = false
  ∧ hasNotify (upload env req course_id).2 = false
  ∧ hasNotify (users env req course_id).2 = false :=
  ⟨hasNotify_create_comment_inner_reply env req course_id (some thread_id) hflag hbody,
   hasNotify_vote_for_thread_on env req course_id thread_id value hflag,
   hasNotify_follow_thread_on env req course_id thread_id hflag,
   fun p => hasNotify_create_comment_inner_parent env req course_id (some thread_id) p,
   hasNotify_create_comment_imp env req course_id thread_id,
   hasNotify_create_thread env req course_id commentable_id,
   hasNotify_update_thread env req course_id thread_id,
   hasNotify_update_comment env req course_id comment_id,
   hasNotify_create_sub_comment env req course_id comment_id,
   hasNotify_delete_thread env req course_id thread_id,
   hasNotify_delete_comment env req course_id comment_id,
   hasNotify_endorse_comment env req course_id comment_id,
   hasNotify_openclose_thread env req course_id thread_id,
   hasNotify_vote_for_comment env req course_id comment_id value,
   hasNotify_undo_vote_for_comment env req course_id comment_id,
   hasNotify_undo_vote_for_thread env req course_id thread_id,
   hasNotify_flag_abuse_for_thread env req course_id thread_id,
   hasNotify_un_flag_abuse_for_thread env req course_id thread_id,
   hasNotify_flag_abuse_for_comment env req course_id comment_id,
   hasNotify_un_flag_abuse_for_comment env req course_id comment_id,
   hasNotify_pin_thread env req course_id thread_id,
   hasNotify_un_pin_thread env req course_id thread_id,
   hasNotify_follow_commentable env req course_id commentable_id,
   hasNotify_follow_user env req course_id followed_user_id,
   hasNotify_unfollow_thread env req course_id thread_id,
   hasNotify_unfollow_commentable env req course_id commentable_id,
   hasNotify_unfollow_user env req course_id followed_user_id,
   hasNotify_upload env req course_id,
   hasNotify_users env req course_id⟩

/-- A witness environment: notifications enabled and every thread authored by
user 5. -/
def envNotifOn : Env :=
  { FEATURES_NOTIFICATIONS_ENABLED := some true,
    findThread := fun _ => { user_id := 5 } }

/-- A witness request from user 7 with a non-blank body. -/
def reqUser7 : Request := { user_id := 7, post := { body := some "hello" } }

/-- Witness for C1: with notifications on, user 7 replying to a thread of
user 5 publishes a notification. -/
theorem discussion_notification_iff_actor_differs_witness :
    hasNotify (_create_comment envNotifOn reqUser7 "course-1" (some "t1") none).2 = true := by
  have h := (discussion_notification_iff_actor_differs envNotifOn reqUser7
    "course-1" "general" "t1" "cm1" "u1" "up" rfl (by decide)).1
  rw [h]
  rfl

/-- C9: when the NOTIFICATIONS_ENABLED feature flag is absent or false, no
handler in the module publishes a notification, whatever the request, acting
user and thread author. -/
theorem no_notification_when_flag_absent_or_false (env : Env) (req : Request)
    (course_id commentable_id thread_id comment_id followed_user_id value : String)
    (hflag : env.FEATURES_NOTIFICATIONS_ENABLED = none ∨
             env.FEATURES_NOTIFICATIONS_ENABLED = some false) :
    hasNotify (create_thread env req course_id commentable_id).2 = false
  ∧ hasNotify (update_thread env req course_id thread_id).2 = false
  ∧ (∀ tid pid : Option String,
        hasNotify (_create_comment env req course_id tid pid).2 = false)
  ∧ hasNotify (create_comment env req course_id thread_id).2 = false
  ∧ hasNotify (create_sub_comment env req course_id comment_id).2 = false
  ∧ hasNotify (update_comment env req course_id comment_id).2 = false
  ∧ hasNotify (delete_thread env req course_id thread_id).2 = false
  ∧ hasNotify (delete_comment env req course_id comment_id).2 = false
  ∧ hasNotify (endorse_comment env req course_id comment_id).2 = false
  ∧ hasNotify (openclose_thread env req course_id thread_id).2 = false
  ∧ hasNotify (vote_for_comment env req course_id comment_id value).2 = false
  ∧ hasNotify (undo_vote_for_comment env req course_id comment_id).2 = false
  ∧ hasNotify (vote_for_thread env req course_id thread_id value).2 = false
  ∧ hasNotify (undo_vote_for_thread env req course_id thread_id).2 = false
  ∧ hasNotify (flag_abuse_for_thread env req course_id thread_id).2 = false
  ∧ hasNotify (un_flag_abuse_for_thread env req course_id thread_id).2 = false
  ∧ hasNotify (flag_abuse_for_comment env req course_id comment_id).2 = false
  ∧ hasNotify (un_flag_abuse_for_comment env req course_id comment_id).2 = false
  ∧ hasNotify (pin_thread env req course_id thread_id).2 = false
  ∧ hasNotify (un_pin_thread env req course_id thread_id).2 = false
  ∧ hasNotify (follow_thread env req course_id thread_id).2 = false
  ∧ hasNotify (follow_commentable env req course_id commentable_id).2 = false
  ∧ hasNotify (follow_user env req course_id followed_user_id).2 = false
  ∧ hasNotify (unfollow_thread env req course_id thread_id).2 = false
  ∧ hasNotify (unfollow_commentable env req course_id commentable_id).2 = false
  ∧ hasNotify (unfollow_user env req course_id followed_user_id).2 = false
  ∧ hasNotify (upload env req course_id).2 = false
  ∧ hasNotify (users env req course_id).2 = false := by
  have hoff : notificationsEnabled env = false := by
    rcases hflag with h | h <;> simp [notificationsEnabled, h]
  exact ⟨hasNotify_create_thread env req course_id commentable_id,
    hasNotify_update_thread env req course_id thread_id,
    fun tid pid => hasNotify_create_comment_inner_off env req course_id tid pid hoff,
    hasNotify_create_comment_off env req course_id thread_id hoff,
    hasNotify_create_sub_comment env req course_id comment_id,
    hasNotify_update_comment env req course_id comment_id,
    hasNotify_delete_thread env req course_id thread_id,
    hasNotify_delete_comment env req course_id comment_id,
    hasNotify_endorse_comment env req course_id comment_id,
    hasNotify_openclose_thread env req course_id thread_id,
    hasNotify_vote_for_comment env req course_id comment_id value,
    hasNotify_undo_vote_for_comment env req course_id comment_id,
    hasNotify_vote_for_thread_off env req course_id thread_id value hoff,
    hasNotify_undo_vote_for_thread env req course_id thread_id,
    hasNotify_flag_abuse_for_thread env req course_id thread_id,
    hasNotify_un_flag_abuse_for_thread env req course_id thread_id,
    hasNotify_flag_abuse_for_comment env req course_id comment_id,
    hasNotify_un_flag_abuse_for_comment env req course_id comment_id,
    hasNotify_pin_thread env req course_id thread_id,
    hasNotify_un_pin_thread env req course_id thread_id,
    hasNotify_follow_thread_off env req course_id thread_id hoff,
    hasNotify_follow_commentable env req course_id commentable_id,
    hasNotify_follow_user env req course_id followed_user_id,
    hasNotify_unfollow_thread env req course_id thread_id,
    hasNotify_unfollow_commentable env req course_id commentable_id,
    hasNotify_unfollow_user env req course_id followed_user_id,
    hasNotify_upload env req course_id,
    hasNotify_users env req course_id⟩

/-- A witness environment with no NOTIFICATIONS_ENABLED entry and a thread
author (user 5) different from the acting user of `reqUser7`. -/
def envFlagAbsent : Env := { findThread := fun _ => { user_id := 5 } }

/-- Witness for C9: with the flag absent, even an upvote by a different user
(7 versus author 5) publishes nothing. -/
theorem no_notification_when_flag_absent_or_false_witness :
    hasNotify (vote_for_thread envFlagAbsent reqUser7 "course-1" "t1" "up").2 = false :=
  (no_notification_when_flag_absent_or_false envFlagAbsent reqUser7
    "course-1" "general" "t1" "cm1" "u1" "up" (Or.inl rfl)).2.2.2.2.2.2.2.2.2.2.2.2.1

/-- C2: a create or update request whose required title/body field is absent,
empty or whitespace-only yields a validation error (`JsonError`, status 400)
and the handler issues no save, follow or notification call. -/
theorem blank_title_or_body_rejected (env : Env) (req : Request)
    (course_id commentable_id thread_id comment_id : String)
    (h : blankField req.post.title = true ∨ blankField req.post.body = true) :
    (isValidationErrorO (create_thread env req course_id commentable_id).1 = true
       ∧ noMutation (create_thread env req course_id commentable_id).2 = true)
  ∧ (isValidationError (update_thread env req course_id thread_id).1 = true
       ∧ noMutation (update_thread env req course_id thread_id).2 = true)
  ∧ (blankField req.post.body = true →
       ∀ tid pid : Option String,
         isValidationError (_create_comment env req course_id tid pid).1 = true
         ∧ noMutation (_create_comment env req course_id tid pid).2 = true)
  ∧ (blankField req.post.body = true →
       isValidationError (update_comment env req course_id comment_id).1 = true
       ∧ noMutation (update_comment env req course_id comment_id).2 = true) := by
  refine ⟨?_, ?_, ?_, ?_⟩
  · rcases h with ht | hb
    · simp [create_thread, ht, isValidationErrorO, isValidationError, noMutation,
        isMutationEffect]
    · by_cases ht' : blankField req.post.title = true <;>
        simp [create_thread, ht', hb, isValidationErrorO, isValidationError, noMutation,
          isMutationEffect]
  · rcases h with ht | hb
    · simp [update_thread, ht, isValidationError, noMutation, isMutationEffect]
    · by_cases ht' : blankField req.post.title = true <;>
        simp [update_thread, ht', hb, isValidationError, noMutation, isMutationEffect]
  · intro hb tid pid
    simp [_create_comment, hb, isValidationError, noMutation, isMutationEffect]
  · intro hb
    simp [update_comment, hb, isValidationError, noMutation, isMutationEffect]

/-- Witness for C2: an entirely empty POST payload (title and body absent) is
rejected by `create_thread` without any mutation. -/
theorem blank_title_or_body_rejected_witness :
    isValidationErrorO (create_thread {} {} "course-1" "general").1 = true
    ∧ noMutation (create_thread {} {} "course-1" "general").2 = true :=
  (blank_title_or_body_rejected {} {} "course-1" "general" "t1" "cm1" (Or.inl rfl)).1

/-- C3: with a configured maximum depth `m`, a sub-comment whose parent has
depth at least `m` is rejected as "Comment level too deep" and nothing is
created (the only remote call is the parent lookup); with `m < 0`,
`create_comment` rejects even a thread-level comment with the same error and
no remote call at all. -/
theorem comment_depth_limit_enforced (env : Env) (req : Request)
    (course_id thread_id comment_id : String) (m : Int)
    (hmax : env.MAX_COMMENT_DEPTH = some m) :
    (m ≤ ((env.findComment (some comment_id)).depth : Int) →
       create_sub_comment env req course_id comment_id =
         (Response.jsonError "Comment level too deep" 400,
          [Effect.findComment (some comment_id)]))
  ∧ (m < 0 →
       create_comment env req course_id thread_id =
         (Response.jsonError "Comment level too deep" 400, [])) := by
  constructor
  · intro hd
    unfold create_sub_comment
    rw [hmax]
    dsimp only
    rw [if_pos hd]
  · intro hneg
    unfold create_comment
    rw [hmax]
    dsimp only
    rw [if_pos hneg]

/-- A witness environment whose configured maximum depth is `-1`. -/
def envDepthNeg : Env := { MAX_COMMENT_DEPTH := some (-1) }

/-- Witness for C3: with maximum depth `-1`, a reply to a depth-0 comment and
a thread-level comment are both rejected. -/
theorem comment_depth_limit_enforced_witness :
    create_sub_comment envDepthNeg {} "course-1" "cm1" =
      (Response.jsonError "Comment level too deep" 400, [Effect.findComment (some "cm1")])
    ∧ create_comment envDepthNeg {} "course-1" "t1" =
      (Response.jsonError "Comment level too deep" 400, []) :=
  ⟨(comment_depth_limit_enforced envDepthNeg {} "course-1" "t1" "cm1" (-1) rfl).1 (by decide),
   (comment_depth_limit_enforced envDepthNeg {} "course-1" "t1" "cm1" (-1) rfl).2 (by decide)⟩

/-- C4 counterexample: the claim says `create_comment` never rejects a valid
non-empty body on depth grounds regardless of the configured maximum, but with
`MAX_COMMENT_DEPTH = -1` (views.py lines 244-246) a request with body "hello"
is rejected as "Comment level too deep". -/
theorem thread_level_comment_depth_counterexample :
    blankField reqUser7.post.body = false
    ∧ (create_comment envDepthNeg reqUser7 "course-1" "t1").1 =
        Response.jsonError "Comment level too deep" 400 := by
  exact ⟨by decide, rfl⟩

/-- C4 amended: provided the configured maximum depth is unset or
nonnegative, `create_comment` with a non-blank body never rejects on depth
grounds: it behaves exactly as `_create_comment` and issues the comment save.
-/
theorem thread_level_comment_creation_proceeds (env : Env) (req : Request)
    (course_id thread_id : String)
    (hmax : ∀ m : Int, env.MAX_COMMENT_DEPTH = some m → 0 ≤ m)
    (hbody : blankField req.post.body = false) :
    create_comment env req course_id thread_id =
      _create_comment env req course_id (some thread_id) none
    ∧ (create_comment env req course_id thread_id).2.any isSaveCommentEffect = true := by
  have heq : create_comment env req course_id thread_id =
      _create_comment env req course_id (some thread_id) none := by
    unfold create_comment
    cases hm : env.MAX_COMMENT_DEPTH with
    | none => rfl
    | some m =>
      have h0 := hmax m hm
      dsimp only
      rw [if_neg (by omega)]
  refine ⟨heq, ?_⟩
  rw [heq]
  unfold _create_comment
  dsimp only
  simp only [hbody, Bool.false_eq_true, if_false]
  repeat' split
  all_goals rfl

/-- Witness for C4 amended: with no configured maximum, user 7's comment with
body "hello" goes through to `_create_comment` and is saved. -/
theorem thread_level_comment_creation_proceeds_witness :
    (create_comment {} reqUser7 "course-1" "t1").2.any isSaveCommentEffect = true :=
  (thread_level_comment_creation_proceeds {} reqUser7 "course-1" "t1"
    (fun m hm => by simp at hm) (by decide)).2

/-- C5: the unflag-abuse handlers pass `remove_all` to the comment service as
the disjunction of the moderation (`openclose_thread`) permission and staff
access — true exactly when one of the two holds, so any other user's call
only removes their own flag. -/
theorem unflag_abuse_remove_all_mode (env : Env) (req : Request)
    (course_id thread_id comment_id : String) :
    (un_flag_abuse_for_thread env req course_id thread_id).2 =
      [Effect.findThread (some thread_id),
       Effect.unFlagAbuseThread (env.findThread (some thread_id))
         (env.has_openclose_permission || env.has_staff_access)]
  ∧ (un_flag_abuse_for_comment env req course_id comment_id).2 =
      [Effect.findComment (some comment_id),
       Effect.unFlagAbuseComment (env.findComment (some comment_id))
         (env.has_openclose_permission || env.has_staff_access)]
  ∧ ((env.has_openclose_permission || env.has_staff_access) = true ↔
       (env.has_openclose_permission = true ∨ env.has_staff_access = true)) :=
  ⟨rfl, rfl, by simp⟩

/-- C6: update handlers never null out fields absent from the payload: any
thread saved by `update_thread` keeps the stored `thread_type` and
`commentable_id` when those keys are absent, and any comment saved by
`update_comment` is exactly the stored comment with only its body replaced. -/
theorem update_handlers_preserve_absent_fields (env : Env) (req : Request)
    (course_id thread_id comment_id : String) :
    (∀ t : Thread, Effect.saveThread t ∈ (update_thread env req course_id thread_id).2 →
        (req.post.thread_type = none →
           t.thread_type = (env.findThread (some thread_id)).thread_type)
      ∧ (req.post.commentable_id = none →
           t.commentable_id = (env.findThread (some thread_id)).commentable_id))
  ∧ (∀ c : Comment, Effect.saveComment c ∈ (update_comment env req course_id comment_id).2 →
        c = { env.findComment (some comment_id) with body := req.post.body.getD "" }) := by
  constructor
  · intro t ht
    unfold update_thread at ht
    dsimp only at ht
    by_cases hT : blankField req.post.title = true
    · rw [if_pos hT] at ht; simp at ht
    · rw [if_neg hT] at ht
      by_cases hB : blankField req.post.body = true
      · rw [if_pos hB] at ht; simp at ht
      · rw [if_neg hB] at ht
        constructor
        · intro hty
          rw [hty] at ht
          dsimp only at ht
          cases hcm : req.post.commentable_id with
          | some cid =>
            rw [hcm] at ht
            dsimp only at ht
            by_cases hc : env.discussion_category_ids.contains cid = true
            · rw [if_pos hc] at ht
              simp at ht
              rw [ht]
            · rw [if_neg hc] at ht
              simp at ht
          | none =>
            rw [hcm] at ht
            dsimp only at ht
            simp at ht
            rw [ht]
        · intro hcm
          rw [hcm] at ht
          dsimp only at ht
          simp at ht
          rw [ht]
          cases hty : req.post.thread_type <;> rfl
  · intro c hc
    unfold update_comment at hc
    dsimp only at hc
    by_cases hB : blankField req.post.body = true
    · rw [if_pos hB] at hc; simp at hc
    · rw [if_neg hB] at hc
      simp at hc
      rw [hc]

/-- A witness request carrying only a title and a body. -/
def reqTitleBody : Request :=
  { user_id := 3, post := { title := some "T", body := some "B" } }

/-- The thread `update_thread` saves for `reqTitleBody` over the default
environment. -/
def savedThreadTB : Thread := { body := "B", title := "T" }

/-- Witness for C6: updating with a payload that omits `thread_type` and
`commentable_id` saves a thread keeping both stored values. -/
theorem update_handlers_preserve_absent_fields_witness :
    savedThreadTB.thread_type = (Env.findThread {} (some "t1")).thread_type
    ∧ savedThreadTB.commentable_id = (Env.findThread {} (some "t1")).commentable_id :=
  ⟨((update_handlers_preserve_absent_fields {} reqTitleBody "course-1" "t1" "cm1").1
      savedThreadTB (by decide)).1 rfl,
   ((update_handlers_preserve_absent_fields {} reqTitleBody "course-1" "t1" "cm1").1
      savedThreadTB (by decide)).2 rfl⟩

theorem urlunparse_stripped_no_char (scheme netloc path : String) (c : Char)
    (hs : c ∉ scheme.data) (hn : c ∉ netloc.data) (hp : c ∉ path.data)
    (hsl : c ≠ '/') (hco : c ≠ ':') :
    c ∉ (urlunparse scheme netloc path "" "" "").data := by
  unfold urlunparse
  dsimp only
  simp only [ne_eq, not_true_eq_false, if_false, reduceIte]
  repeat' split
  all_goals simp_all [String.data_append, List.mem_append, String.data]

/-- An environment whose upload raises `PermissionDenied` with an empty
message. -/
def envUploadPDEmpty : Env := { upload_store := .permissionDenied "" }

/-- C7 counterexample: the claim says every failing upload returns a response
with empty result message and file URL, but a `PermissionDenied` whose message
is the empty string makes `upload` take the `error == ''` success branch with
`file_storage` unbound (views.py lines 669-678), an uncaught exception rather
than any response. -/
theorem upload_failure_response_counterexample :
    (upload envUploadPDEmpty {} "course-1").1 = none := rfl

/-- C7 amended: for every upload failure whose error message is non-empty —
which covers all failures the storage layer actually raises: PermissionDenied
with its message, and any unexpected error, which is replaced by the fixed
generic message with no exception detail — the response carries an empty
result message and empty file URL; on success the stored URL is rebuilt with
params, query and fragment emptied, so the returned URL contains no query or
fragment separator the components themselves don't contain. -/
theorem upload_error_and_url_shape (env : Env) (req : Request) (course_id : String) :
    (∀ m : String, m ≠ "" → env.upload_store = .permissionDenied m →
        (upload env req course_id).1 = some (.uploadResult "" m ""))
  ∧ (∀ m : String, env.upload_store = .unexpected m →
        (upload env req course_id).1 = some (.uploadResult "" uploadGenericError ""))
  ∧ (∀ scheme netloc path params query fragment : String,
        env.upload_store = .stored scheme netloc path params query fragment →
        (upload env req course_id).1 =
          some (.uploadResult "Good" "" (urlunparse scheme netloc path "" "" ""))
        ∧ (∀ c : Char, c = '?' ∨ c = '#' → c ∉ scheme.data → c ∉ netloc.data →
             c ∉ path.data → c ∉ (urlunparse scheme netloc path "" "" "").data)) := by
  refine ⟨?_, ?_, ?_⟩
  · intro m hm hstore
    unfold upload
    rw [hstore]
    dsimp only
    rw [if_neg (by simpa using hm)]
  · intro m hstore
    unfold upload
    rw [hstore]
    dsimp only
    rw [if_neg (by simp [uploadGenericError])]
  · intro scheme netloc path params query fragment hstore
    constructor
    · unfold upload
      rw [hstore]
      dsimp only
      rw [if_pos (by simp)]
    · intro c hc hs hn hp
      rcases hc with h | h <;>
        exact urlunparse_stripped_no_char scheme netloc path c hs hn hp
          (by rw [h]; decide) (by rw [h]; decide)

/-- An environment whose upload raises `PermissionDenied` with a real
message. -/
def envUploadPD : Env := { upload_store := .permissionDenied "upload denied" }

/-- An environment whose upload raises an unexpected exception with internal
detail. -/
def envUploadBoom : Env := { upload_store := .unexpected "Traceback: secret" }

/-- An environment whose upload succeeds storing a URL with query and
fragment. -/
def envUploadOk : Env :=
  { upload_store := .stored "https" "cdn.example.com" "/f.png" "" "sig=abc" "frag" }

/-- Witness for C7 amended: the three branches at concrete environments — a
denied upload returns its message with empty result and URL, an unexpected
error returns the generic message only, and a stored URL comes back with
query and fragment gone ('?' appears in none of the components, so not in
the result). -/
theorem upload_error_and_url_shape_witness :
    (upload envUploadPD {} "course-1").1 =
      some (.uploadResult "" "upload denied" "")
    ∧ (upload envUploadBoom {} "course-1").1 =
      some (.uploadResult "" uploadGenericError "")
    ∧ (upload envUploadOk {} "course-1").1 =
      some (.uploadResult "Good" "" (urlunparse "https" "cdn.example.com" "/f.png" "" "" ""))
    ∧ '?' ∉ (urlunparse "https" "cdn.example.com" "/f.png" "" "" "").data :=
  ⟨(upload_error_and_url_shape envUploadPD {} "course-1").1 "upload denied" (by decide) rfl,
   (upload_error_and_url_shape envUploadBoom {} "course-1").2.1 "Traceback: secret" rfl,
   ((upload_error_and_url_shape envUploadOk {} "course-1").2.2 "https" "cdn.example.com"
      "/f.png" "" "sig=abc" "frag" rfl).1,
   ((upload_error_and_url_shape envUploadOk {} "course-1").2.2 "https" "cdn.example.com"
      "/f.png" "" "sig=abc" "frag" rfl).2 '?' (Or.inl rfl) (by decide) (by decide) (by decide)⟩

/-- C8: the `users` lookup returns at most one match; any returned user has
positive thread-plus-comment activity in the course; and an exact username
match with zero activity yields an empty result list. -/
theorem users_lookup_requires_activity (env : Env) (req : Request) (course_id : String) :
    (∀ l : List (Nat × String),
        (users env req course_id).1 = .usersResult l → l.length ≤ 1)
  ∧ (∀ (x : Nat × String) (l : List (Nat × String)),
        (users env req course_id).1 = .usersResult l → x ∈ l →
        0 < env.threads_count x.1 + env.comments_count x.1)
  ∧ (∀ (uname uname2 : String) (uid : Nat),
        env.course_access_forum = true →
        req.get_username = some uname →
        env.django_user uname = some (uid, uname2) →
        env.threads_count uid + env.comments_count uid = 0 →
        (users env req course_id).1 = .usersResult []) := by
  refine ⟨?_, ?_, ?_⟩
  · intro l hl
    unfold users at hl
    by_cases ha : env.course_access_forum = true
    · simp only [ha, Bool.not_true] at hl
      rw [if_neg (by simp)] at hl
      cases hu : req.get_username with
      | none => rw [hu] at hl; simp at hl
      | some uname =>
        rw [hu] at hl
        dsimp only at hl
        cases hd : env.django_user uname with
        | none =>
          rw [hd] at hl
          dsimp only at hl
          simp only [Response.usersResult.injEq] at hl
          subst hl
          simp
        | some p =>
          obtain ⟨uid, uname2⟩ := p
          rw [hd] at hl
          dsimp only at hl
          by_cases hcnt : env.threads_count uid + env.comments_count uid > 0
          · rw [if_pos hcnt] at hl
            dsimp only at hl
            simp only [Response.usersResult.injEq] at hl
            subst hl
            simp
          · rw [if_neg hcnt] at hl
            dsimp only at hl
            simp only [Response.usersResult.injEq] at hl
            subst hl
            simp
    · simp only [Bool.not_eq_true] at ha
      simp only [ha, Bool.not_false] at hl
      simp at hl
  · intro x l hl hx
    unfold users at hl
    by_cases ha : env.course_access_forum = true
    · simp only [ha, Bool.not_true] at hl
      rw [if_neg (by simp)] at hl
      cases hu : req.get_username with
      | none => rw [hu] at hl; simp at hl
      | some uname =>
        rw [hu] at hl
        dsimp only at hl
        cases hd : env.django_user uname with
        | none =>
          rw [hd] at hl
          dsimp only at hl
          simp only [Response.usersResult.injEq] at hl
          subst hl
          simp at hx
        | some p =>
          obtain ⟨uid, uname2⟩ := p
          rw [hd] at hl
          dsimp only at hl
          by_cases hcnt : env.threads_count uid + env.comments_count uid > 0
          · rw [if_pos hcnt] at hl
            dsimp only at hl
            simp only [Response.usersResult.injEq] at hl
            subst hl
            simp only [List.mem_singleton] at hx
            subst hx
            exact hcnt
          · rw [if_neg hcnt] at hl
            dsimp only at hl
            simp only [Response.usersResult.injEq] at hl
            subst hl
            simp at hx
    · simp only [Bool.not_eq_true] at ha
      simp only [ha, Bool.not_false] at hl
      simp at hl
  · intro uname uname2 uid ha hu hd hcnt
    unfold users
    simp only [ha, Bool.not_true]
    rw [if_neg (by simp)]
    rw [hu]
    dsimp only
    rw [hd]
    dsimp only
    rw [if_neg (by rw [hcnt]; simp)]

/-- A witness environment: user "alice" (id 9) exists but has no forum
activity. -/
def envAliceInactive : Env :=
  { django_user := fun u => if u == "alice" then some (9, "alice") else none }

/-- A witness request looking up "alice". -/
def reqLookupAlice : Request := { get_username := some "alice" }

/-- Witness for C8: the exact match "alice" with zero activity produces an
empty result list. -/
theorem users_lookup_requires_activity_witness :
    (users envAliceInactive reqLookupAlice "course-1").1 = .usersResult [] :=
  (users_lookup_requires_activity envAliceInactive reqLookupAlice "course-1").2.2
    "alice" "alice" 9 rfl rfl (by decide) rfl

theorem pinnedPatch_isSome (t : Thread) : (pinnedPatch t).pinned.isSome = true := by
  unfold pinnedPatch
  by_cases h : t.pinned.isSome = true <;> simp [h]

/-- C10: every thread entity in a successful `create_thread` response carries
a `pinned` attribute: the handler backfills `False` when the comment service
returns a thread without one. -/
theorem created_thread_always_has_pinned (env : Env) (req : Request)
    (course_id commentable_id : String) (t : Thread) (ajax : Bool)
    (h : (create_thread env req course_id commentable_id).1 =
           some (Response.threadContent t ajax)) :
    t.pinned.isSome = true := by
  unfold create_thread at h
  dsimp only at h
  by_cases hT : blankField req.post.title = true
  · rw [if_pos hT] at h; exact absurd h (by simp)
  · rw [if_neg hT] at h
    by_cases hB : blankField req.post.body = true
    · rw [if_pos hB] at h; exact absurd h (by simp)
    · rw [if_neg hB] at h
      cases hty : req.post.thread_type with
      | none => rw [hty] at h; exact absurd h (by simp)
      | some tt =>
        rw [hty] at h
        dsimp only at h
        cases hg : env.group_id_result with
        | error e => rw [hg] at h; exact absurd h (by simp)
        | ok gid =>
          rw [hg] at h
          dsimp only at h
          cases gid with
          | some g =>
            dsimp only at h
            simp only [Option.some.injEq, Response.threadContent.injEq] at h
            obtain ⟨ht, -⟩ := h
            rw [← ht]
            exact pinnedPatch_isSome _
          | none =>
            dsimp only at h
            simp only [Option.some.injEq, Response.threadContent.injEq] at h
            obtain ⟨ht, -⟩ := h
            rw [← ht]
            exact pinnedPatch_isSome _

/-- A witness request with title, body and thread type. -/
def reqThreadW : Request :=
  { user_id := 3,
    post := { title := some "T", body := some "B", thread_type := some "discussion" } }

/-- The thread returned for `reqThreadW` over the default environment: the
comment service echoed the thread without a `pinned` attribute and the
handler backfilled `pinned := some false`. -/
def pinnedThreadW : Thread :=
  { commentable_id := "general", course_id := "course-1", user_id := 3,
    thread_type := "discussion", body := "B", title := "T", pinned := some false }

/-- Witness for C10: a successful creation over a service that stores threads
unchanged (hence without `pinned`) responds with `pinned = some false`. -/
theorem created_thread_always_has_pinned_witness :
    pinnedThreadW.pinned.isSome = true :=
  created_thread_always_has_pinned {} reqThreadW "course-1" "general"
    pinnedThreadW false (by decide)
